import Mathlib

/-!
Shallow embedding of the CoastWatch Format (CWF) library
(src/native/noaa/coastwatch/io/CWF/src/cwflib.c and cwproj.c) and proofs
about it.

Modelling conventions, used throughout:
* C `short` values are `Int` together with the explicit wrap `toShort`
  (two's complement, 16 bits); `unsigned short` values are `Nat` with
  `toUShort`; bytes are `Nat` kept below 256 by construction; `size_t`
  values are `Nat`, with the one place the code can wrap (`start + count - 1`)
  made explicit by `szSub1`.
* C `float` data values are embedded as exact rationals `ℚ` (decimal float
  literals such as `20.47f` become the exact decimals they denote), and the
  `double` arithmetic of the projection module as real numbers `ℝ`.
* The byte-order machinery (`cw_byteswap`, `byte_swap_in`) is normalized
  away by embedding the big-endian-host instance of the library, on which
  `byte_order () == 0` is false and no swap ever runs; on that host every
  2-byte attribute or pixel is read and written in the big-endian order it
  has on disk, which is also the value the little-endian-host instance
  computes after its swaps, so the embedded behaviour is host independent.
* Files are lists of bytes; `fread` past the end of a file fails exactly as
  in the C library, while in-memory writes (`fwrite` to a regular or
  temporary file) always succeed.  `malloc` is assumed to succeed.
* Out-of-bounds array accesses that C leaves undefined are surfaced as
  `Option.none` results where they can change control flow (the registry
  lookups) and noted in comments where they cannot.
-/

/-! ## Machine-integer helpers -/

/-- Wrap an integer to a C `short` (two's-complement 16 bits). -/
def toShort (n : Int) : Int :=
  let m := n % 65536
  if m < 32768 then m else m - 65536

/-- Wrap an integer to a C `unsigned short`. -/
def toUShort (n : Int) : Nat :=
  (n % 65536).toNat

/-- Conversion of a C `int` value to `size_t` (64-bit, modular). -/
def sizeTofInt (n : Int) : Nat :=
  (n % 2 ^ 64).toNat

/-- The `size_t` expression `n - 1`, which wraps when `n = 0`
(as in the window check `start + count - 1`). -/
def szSub1 (n : Nat) : Nat :=
  if n % 2 ^ 64 = 0 then 2 ^ 64 - 1 else n % 2 ^ 64 - 1

/-- `roundf` as defined in cwflib.c / cwproj.c:
`f > 0 ? floor (f+0.5) : ceil (f-0.5)`, yielding an integer. -/
def roundf (f : ℚ) : Int :=
  if f > 0 then ⌊f + 1 / 2⌋ else ⌈f - 1 / 2⌉

/-- C truncation of a float toward zero (the cast `(short) f` before
wrapping), on the exact rational embedding of the float. -/
def ratTrunc (q : ℚ) : Int :=
  q.num.tdiv (q.den : Int)

/-! ## Constants of cwflib.h / cwflib.c -/

def CW_BYTE : Int := 0
def CW_CHAR : Int := 1
def CW_SHORT : Int := 2
def CW_FLOAT : Int := 3

def CW_NOERR : Int := 0
def CW_BADVAL : ℚ := -999

def CW_CLOBBER : Int := 0
def CW_NOCLOBBER : Int := 1
def CW_NOWRITE : Int := 0
def CW_WRITE : Int := 1

def CW_DATA_ID_VISIBLE : Int := 0
def CW_DATA_ID_IR : Int := 1
def CW_DATA_ID_ANCILLARY : Int := 2
def CW_DATA_ID_CLOUD : Int := 3

def CW_CALIBRATION_TYPE_RAW : Int := 0
def CW_CALIBRATION_TYPE_ALBEDO_TEMPERATURE : Int := 2

def CW_COMPRESSION_TYPE_NONE : Int := 0
def CW_COMPRESSION_TYPE_FLAT : Int := 1
def CW_COMPRESSION_TYPE_1B : Int := 2

def CW_CHANNEL_NUMBER_AVHRR5 : Int := 5
def CW_CHANNEL_NUMBER_SCAN_ANGLE : Int := 101
def CW_CHANNEL_NUMBER_SAT_ZENITH : Int := 102
def CW_CHANNEL_NUMBER_SOL_ZENITH : Int := 103
def CW_CHANNEL_NUMBER_REL_AZIMUTH : Int := 104
def CW_CHANNEL_NUMBER_SCAN_TIME : Int := 105

def CW_MAX_FILES : Nat := 100
def CW_HEAD_MIN : Nat := 136
def CW_HEAD_COMP : Nat := 1024
def CW_MAGIC_NUM : Nat := 0xd5

def CW_DATA : Int := 0
def CW_GRAPHICS : Int := 1

/-- Header byte offsets of the attributes the embedded operations read. -/
def CW_O_CALIBRATION_TYPE : Nat := 44
def CW_O_CHANNEL_NUMBER : Nat := 48
def CW_O_DATA_ID : Nat := 50
def CW_O_CHANNEL_PIXEL_SIZE : Nat := 62
def CW_O_ANCILLARY_PIXEL_SIZE : Nat := 70
def CW_O_COMPRESSION_TYPE : Nat := 78
def CW_O_HORIZONTAL_SHIFT : Nat := 84
def CW_O_VERTICAL_SHIFT : Nat := 86
def CW_O_ROWS : Nat := 34
def CW_O_COLUMNS : Nat := 36

def CW_ERR_ACCESS : Int := 3
def CW_ERR_ACCESS_MODE : Int := 4
def CW_ERR_DATASET_ID : Int := 6
def CW_ERR_VAR_ID : Int := 16
def CW_ERR_VAR_INDEX : Int := 17
def CW_ERR_VAR_VALUE : Int := 18
def CW_ERR_DEFINE_MODE : Int := 19
def CW_ERR_MAX_FILES : Int := 23
def CW_ERR_CREATE_EXISTS : Int := 24
def CW_ERR_MAGIC : Int := 26
def CW_ERR_MAGIC_READ : Int := 27
def CW_ERR_READ_ATT : Int := 31
def CW_ERR_READ_DATA : Int := 32
def CW_ERR_WRITE_DATA : Int := 35
def CW_ERR_UNSUP_DATA_ID : Int := 39
def CW_ERR_UNSUP_CHANNEL_NUMBER : Int := 40
def CW_ERR_UNSUP_PIXEL_SIZE : Int := 43
def CW_ERR_UNSUP_CALIBRATION_TYPE : Int := 44
def CW_ERR_UFILE : Int := 46
def CW_ERR_UNSUP_COMPRESSION_TYPE : Int := 47
def CW_ERR_COM_BYTE0 : Int := 48
def CW_ERR_WRITE_SHIFT : Int := 50
def CW_ERR_CREATE_MODE : Int := 2

/-! ## The bit-manipulation macros of cwflib.c

`CW_UNC_*` pack and unpack the uncompressed representation (11-bit signed
channel value in the high bits, 4-bit graphics nibble in the low bits of an
unsigned short); `CW_COM_*` read and write the 1B compressed codes. -/

/-- `CW_UNC_RVAL(a)`: the signed channel value of an uncompressed short. -/
def CW_UNC_RVAL (a : Nat) : Int :=
  (((a &&& 0x7FF0) >>> 4 : Nat) : Int) * (if a &&& 0x8000 ≠ 0 then -1 else 1)

/-- `CW_UNC_RGRA(a)`: the graphics nibble of an uncompressed short. -/
def CW_UNC_RGRA (a : Nat) : Nat := a &&& 0x000F

/-- `CW_UNC_W(a,b)`: pack channel value `a` and graphics nibble `b` into an
unsigned short (the assignment truncates to 16 bits). -/
def CW_UNC_W (a : Int) (b : Nat) : Nat :=
  ((a.natAbs % 65536) <<< 4 |||
    (if a < 0 then 0x8000 else 0) ||| (b &&& 0x000F)) % 65536

/-- `CW_COM_ISMVAL(a)`: the absolute-value marker bit of a compressed byte. -/
def CW_COM_ISMVAL (a : Nat) : Nat := a &&& 0x80

/-- `CW_COM_RMVAL(a,b)`: the value of a 2-byte absolute compressed code. -/
def CW_COM_RMVAL (a b : Nat) : Int :=
  (((a &&& 0x0F : Nat) : Int) * 256 + (b : Int)) *
    (if a &&& 0x08 ≠ 0 then -1 else 1)

/-- `CW_COM_RVAL(l,a)`: the value of a 1-byte delta code relative to `l`. -/
def CW_COM_RVAL (l : Int) (a : Nat) : Int :=
  l + ((a &&& 0x3F : Nat) : Int) * (if a &&& 0x40 ≠ 0 then -1 else 1)

/-- `CW_COM_WVAL_B1(a)`: first byte of a 2-byte absolute code
(magnitude high bits, sign bit 0x08, marker bit 0x80). -/
def CW_COM_WVAL_B1 (a : Int) : Nat :=
  ((a.natAbs % 65536) >>> 8) ||| (if a < 0 then 0x08 else 0) ||| 0x80

/-- `CW_COM_WVAL_B2(a)`: second byte of a 2-byte absolute code. -/
def CW_COM_WVAL_B2 (a : Int) : Nat :=
  (a.natAbs % 65536) &&& 0x00FF

/-- `CW_COM_WVAL(a)`: the 1-byte delta code (7-bit magnitude with sign
bit 0x40; the final mask keeps the marker bit clear). -/
def CW_COM_WVAL (a : Int) : Nat :=
  ((a.natAbs % 256) ||| (if a < 0 then 0x40 else 0)) &&& 0x7F

/-! ## Calibration codec (cw_cal_* / cw_uncal_*), on exact rationals -/

/-- `KTOC(a)`: Kelvin to Celsius. -/
def KTOC (a : ℚ) : ℚ := a - 273.15

/-- One element of `cw_cal_raw`. -/
def cw_cal_raw_1 (compression : Int) (s : Int) : ℚ :=
  if compression = CW_COMPRESSION_TYPE_FLAT then
    if s < 0 ∨ s > 1023 then CW_BADVAL else (s : ℚ)
  else
    if s < 1 ∨ s > 1024 then CW_BADVAL else (s : ℚ) - 1

/-- `cw_cal_raw`: calibrate short data to raw counts. -/
def cw_cal_raw (sp : List Int) (compression : Int) : List ℚ :=
  sp.map (cw_cal_raw_1 compression)

/-- One element of `cw_cal_visible`. -/
def cw_cal_visible_1 (compression : Int) (s : Int) : ℚ :=
  if compression = CW_COMPRESSION_TYPE_FLAT then
    if s < 0 ∨ s > 10000 then CW_BADVAL else (s : ℚ) / 100
  else
    if s < 1 ∨ s > 2047 then CW_BADVAL else ((s : ℚ) - 1) / 20.47

/-- `cw_cal_visible`: calibrate short data to visible albedo. -/
def cw_cal_visible (sp : List Int) (compression : Int) : List ℚ :=
  sp.map (cw_cal_visible_1 compression)

/-- One element of `cw_cal_ir`. -/
def cw_cal_ir_1 (compression channel : Int) (s : Int) : ℚ :=
  if compression = CW_COMPRESSION_TYPE_FLAT then
    if channel ≤ CW_CHANNEL_NUMBER_AVHRR5 then
      if s < 0 ∨ s > 32760 then CW_BADVAL else KTOC ((s : ℚ) / 100)
    else
      if s < -4000 ∨ s > 4000 then CW_BADVAL else (s : ℚ) / 100
  else
    if s < 1 ∨ s > 2047 then CW_BADVAL
    else if s = 1 then KTOC 178
    else if s < 921 then ((s : ℚ) - 1) * 0.1 + KTOC 178
    else if s ≤ 1721 then
      let v := ((s : ℚ) - 921) * 0.05 + KTOC 270
      if |v - 0| < 0.01 then 0 else v
    else ((s : ℚ) - 1721) * 0.1 + KTOC 310

/-- `cw_cal_ir`: calibrate short data to IR temperature. -/
def cw_cal_ir (sp : List Int) (compression channel : Int) : List ℚ :=
  sp.map (cw_cal_ir_1 compression channel)

/-- One element of `cw_uncal_raw`: `(short) roundf (f) + 1`, zeroed for the
bad value and for results outside 1..1024. -/
def cw_uncal_raw_1 (f : ℚ) : Int :=
  if f = CW_BADVAL then 0
  else
    let s := toShort (toShort (roundf f) + 1)
    if s < 1 ∨ s > 1024 then 0 else s

/-- `cw_uncal_raw`. -/
def cw_uncal_raw (fp : List ℚ) : List Int := fp.map cw_uncal_raw_1

/-- One element of `cw_uncal_visible`: `(short) roundf (f*20.47f) + 1`,
zeroed for the bad value and for results outside 1..2047. -/
def cw_uncal_visible_1 (f : ℚ) : Int :=
  if f = CW_BADVAL then 0
  else
    let s := toShort (toShort (roundf (f * 20.47)) + 1)
    if s < 1 ∨ s > 2047 then 0 else s

/-- `cw_uncal_visible`. -/
def cw_uncal_visible (fp : List ℚ) : List Int := fp.map cw_uncal_visible_1

/-- One element of `cw_uncal_ir` (three linear segments anchored at
178 K, 270 K and 310 K), zeroed for the bad value, for values below
178 K and for results outside 1..2047. -/
def cw_uncal_ir_1 (f : ℚ) : Int :=
  if f = CW_BADVAL ∨ f < KTOC 178 then 0
  else
    let s :=
      if f = KTOC 178 then 1
      else if f > KTOC 178 ∧ f < KTOC 270 then
        toShort (toShort (roundf ((f - KTOC 178) / 0.1)) + 1)
      else if f ≥ KTOC 270 ∧ f ≤ KTOC 310 then
        toShort (toShort (roundf ((f - KTOC 270) / 0.05)) + 921)
      else toShort (toShort (roundf ((f - KTOC 310) / 0.1)) + 1721)
    if s < 1 ∨ s > 2047 then 0 else s

/-- `cw_uncal_ir`. -/
def cw_uncal_ir (fp : List ℚ) : List Int := fp.map cw_uncal_ir_1

/-! ## Ancillary decode/encode (cw_decode_ancillary / cw_encode_ancillary) -/

/-- One ancillary angle element of `cw_decode_ancillary`. -/
def cw_decode_angle_1 (compression : Int) (u : Nat) : ℚ :=
  if compression = CW_COMPRESSION_TYPE_FLAT then (u : ℚ) / 100
  else if u = 0 then CW_BADVAL else ((u : ℚ) - 1) / 128

/-- One scan-time element of `cw_decode_ancillary`, exactly as coded:
`hours = (short) usp[i]/100; minutes = (short) usp[i] - hours;
fp[i] = hours + (float) minutes/60;`. -/
def cw_decode_scan_time_1 (u : Nat) : ℚ :=
  let s := toShort (u : Int)
  let hours := s.tdiv 100
  let minutes := toShort (s - hours)
  (hours : ℚ) + (minutes : ℚ) / 60

/-- `cw_decode_ancillary` (data pointer non-null): decode unsigned-short
ancillary data to float values. -/
def cw_decode_ancillary (usp : List Nat) (channel compression : Int) :
    Except Int (List ℚ) :=
  if channel = CW_CHANNEL_NUMBER_SCAN_ANGLE ∨ channel = CW_CHANNEL_NUMBER_SAT_ZENITH ∨
      channel = CW_CHANNEL_NUMBER_SOL_ZENITH ∨ channel = CW_CHANNEL_NUMBER_REL_AZIMUTH then
    .ok (usp.map (cw_decode_angle_1 compression))
  else if channel = CW_CHANNEL_NUMBER_SCAN_TIME then
    .ok (usp.map cw_decode_scan_time_1)
  else .error CW_ERR_UNSUP_CHANNEL_NUMBER

/-- One ancillary angle element of `cw_encode_ancillary`:
`(unsigned short) roundf (f*128.0f) + 1`, zero for the bad value. -/
def cw_encode_angle_1 (f : ℚ) : Nat :=
  if f = CW_BADVAL then 0
  else toUShort ((toUShort (roundf (f * 128)) : Int) + 1)

/-- One scan-time element of `cw_encode_ancillary`:
`hours = f; minutes = (short) roundf ((f - hours)*60);
usp[i] = (unsigned short) (hours*100 + minutes);`. -/
def cw_encode_scan_time_1 (f : ℚ) : Nat :=
  let hours := toShort (ratTrunc f)
  let minutes := toShort (roundf ((f - (hours : ℚ)) * 60))
  toUShort (hours * 100 + minutes)

/-- `cw_encode_ancillary` (data pointer non-null). -/
def cw_encode_ancillary (fp : List ℚ) (channel : Int) :
    Except Int (List Nat) :=
  if channel = CW_CHANNEL_NUMBER_SCAN_ANGLE ∨ channel = CW_CHANNEL_NUMBER_SAT_ZENITH ∨
      channel = CW_CHANNEL_NUMBER_SOL_ZENITH ∨ channel = CW_CHANNEL_NUMBER_REL_AZIMUTH then
    .ok (fp.map cw_encode_angle_1)
  else if channel = CW_CHANNEL_NUMBER_SCAN_TIME then
    .ok (fp.map cw_encode_scan_time_1)
  else .error CW_ERR_UNSUP_CHANNEL_NUMBER

/-! ## Channel separate/combine and decode/encode -/

/-- The channel-data half of `cw_separate_channel`. -/
def cw_separate_channel_data (usp : List Nat) : List Int :=
  usp.map CW_UNC_RVAL

/-- The graphics half of `cw_separate_channel`. -/
def cw_separate_channel_gra (usp : List Nat) : List Nat :=
  usp.map CW_UNC_RGRA

/-- `cw_combine_channel`: combine channel data and graphics into unsigned
shorts (null data or null graphics contribute zeros; the library never
passes both as null). -/
def cw_combine_channel (sp : Option (List Int)) (ucp : Option (List Nat)) :
    List Nat :=
  match sp, ucp with
  | none, some g => g.map (fun b => CW_UNC_W 0 b)
  | some s, none => s.map (fun v => CW_UNC_W v 0)
  | some s, some g => List.zipWith CW_UNC_W s g
  | none, none => []

/-- The calibration guess of `cw_decode_channel` / `cw_encode_channel`: a
calibration type that is neither raw nor albedo/temperature is coerced to
albedo/temperature for visible and IR data. -/
def cw_guess_calibration (calibration data_id : Int) : Int :=
  if calibration ≠ CW_CALIBRATION_TYPE_RAW ∧
      calibration ≠ CW_CALIBRATION_TYPE_ALBEDO_TEMPERATURE ∧
      (data_id = CW_DATA_ID_VISIBLE ∨ data_id = CW_DATA_ID_IR) then
    CW_CALIBRATION_TYPE_ALBEDO_TEMPERATURE
  else calibration

/-- `cw_decode_channel` with a non-null float pointer and null graphics
pointer (the call `cw_get_vara` makes): separate the channel data (or, for
flat files, reinterpret the unsigned shorts as signed shorts) and
calibrate. -/
def cw_decode_channel (usp : List Nat)
    (calibration data_id compression channel : Int) : Except Int (List ℚ) :=
  let sp : List Int :=
    if compression ≠ CW_COMPRESSION_TYPE_FLAT then cw_separate_channel_data usp
    else usp.map (fun u => toShort (u : Int))
  let cal := cw_guess_calibration calibration data_id
  if cal = CW_CALIBRATION_TYPE_RAW then .ok (cw_cal_raw sp compression)
  else if cal = CW_CALIBRATION_TYPE_ALBEDO_TEMPERATURE then
    if data_id = CW_DATA_ID_VISIBLE then .ok (cw_cal_visible sp compression)
    else if data_id = CW_DATA_ID_IR then .ok (cw_cal_ir sp compression channel)
    else .error CW_ERR_UNSUP_DATA_ID
  else .error CW_ERR_UNSUP_CALIBRATION_TYPE

/-- `cw_encode_channel`: uncalibrate float data (when present) and combine
it with the graphics nibbles. -/
def cw_encode_channel (fp : Option (List ℚ)) (ucp : Option (List Nat))
    (calibration data_id : Int) : Except Int (List Nat) :=
  match fp with
  | some q =>
    let cal := cw_guess_calibration calibration data_id
    if cal = CW_CALIBRATION_TYPE_RAW then
      .ok (cw_combine_channel (some (cw_uncal_raw q)) ucp)
    else if cal = CW_CALIBRATION_TYPE_ALBEDO_TEMPERATURE then
      if data_id = CW_DATA_ID_VISIBLE then
        .ok (cw_combine_channel (some (cw_uncal_visible q)) ucp)
      else if data_id = CW_DATA_ID_IR then
        .ok (cw_combine_channel (some (cw_uncal_ir q)) ucp)
      else .error CW_ERR_UNSUP_DATA_ID
    else .error CW_ERR_UNSUP_CALIBRATION_TYPE
  | none => .ok (cw_combine_channel none ucp)

/-! ## 1B channel compression (the value-encoding loop of cw_compress) -/

/-- One step of the channel write loop of `cw_compress`: a value whose
difference from the previous value exceeds 63 in magnitude is written as a
2-byte absolute code, any other as a 1-byte delta code. -/
def cw_compress_step (lastd d : Int) : List Nat :=
  if 63 < (d - lastd).natAbs then [CW_COM_WVAL_B1 d, CW_COM_WVAL_B2 d]
  else [CW_COM_WVAL (d - lastd)]

/-- The channel write loop of `cw_compress` after the first value, with
`lastd` carried across rows of the row-major value stream. -/
def cw_compress_rest : Int → List Int → List Nat
  | _, [] => []
  | lastd, d :: ds => cw_compress_step lastd d ++ cw_compress_rest d ds

/-- The channel byte stream `cw_compress` writes for the row-major list of
channel values: the value at row 0, column 0 is always a 2-byte absolute
code, later values go through `cw_compress_step`. -/
def cw_compress_channel : List Int → List Nat
  | [] => []
  | d :: ds => CW_COM_WVAL_B1 d :: CW_COM_WVAL_B2 d :: cw_compress_rest d ds

/-! ## Byte-level file primitives -/

/-- Write `bs` into `file` at byte offset `pos`, zero-filling any gap a seek
past the end leaves (POSIX behaviour of `fseek` + `fwrite`). -/
def writeBytesAt (file : List Nat) (pos : Nat) (bs : List Nat) : List Nat :=
  (file ++ List.replicate (pos - file.length) 0).take pos ++ bs ++
    file.drop (pos + bs.length)

/-- Pair adjacent bytes of host memory into the unsigned shorts a
`(unsigned short *)` cast reads (big-endian host, see the header comment). -/
def bytesToU16 : List Nat → List Nat
  | b0 :: b1 :: rest => (256 * b0 + b1) :: bytesToU16 rest
  | _ => []

/-- The bytes of a list of unsigned shorts in host memory order. -/
def u16sToBytes : List Nat → List Nat
  | u :: rest => (u % 65536) / 256 :: u % 65536 % 256 :: u16sToBytes rest
  | [] => []

/-- `cw_get_att` on a file: seek to the attribute offset and read one 2-byte
code (failing past the end of the file, as `fread` does). -/
def cw_get_att (file : List Nat) (att_offset : Nat) : Option Int :=
  match file.get? att_offset, file.get? (att_offset + 1) with
  | some b0, some b1 => some (toShort ((256 * b0 + b1 : Nat) : Int))
  | _, _ => none

/-! ## Raw pixel I/O (cw_get_raw / cw_put_raw) -/

/-- `tmp_start[i] = (short) start[i] - shift[i]` of `cw_get_raw`
(the difference is computed in `int` and stored into a `short`). -/
def cwShiftStart (start : Nat) (shift : Int) : Int :=
  toShort (toShort (start : Int) - shift)

/-- `tmp_end[i] = tmp_start[i] + (short) count[i] - 1` of `cw_get_raw`. -/
def cwShiftEnd (start : Nat) (shift : Int) (count : Nat) : Int :=
  toShort (cwShiftStart start shift + toShort (count : Int) - 1)

/-- The row read loop of `cw_get_raw`: per remaining row, read
`scountc` pixels at the current position into the buffer at `ucp`, then
skip `readstep` bytes between rows.  A short read copies the complete
pixels that were available and fails. -/
def cw_get_raw_loop (file : List Nat) (ps scountc : Nat) (readstep : Int)
    (ucpstep : Nat) : Nat → Nat → Nat → List Nat → Int × List Nat
  | _pos, _ucp, 0, buf => (CW_NOERR, buf)
  | pos, ucp, r + 1, buf =>
    let nread := min scountc ((file.length - pos) / ps)
    let buf1 := writeBytesAt buf ucp ((file.drop pos).take (nread * ps))
    if nread < scountc then (CW_ERR_READ_DATA, buf1)
    else if r = 0 then (CW_NOERR, buf1)
    else
      let pos1 : Int := (pos : Int) + (nread * ps : Nat) + readstep
      if pos1 < 0 then (CW_ERR_READ_DATA, buf1)
      else cw_get_raw_loop file ps scountc readstep ucpstep pos1.toNat
        (ucp + ucpstep) r buf1

/-- The positioning and read phase of `cw_get_raw`, shared by the shifted
and unshifted paths: pixel data begins after a header of one row width. -/
def cw_get_raw_read (file : List Nat) (ps : Nat) (dims : Int × Int)
    (count : Nat × Nat) (ucpoffset ss0 ss1 sc0 sc1 : Nat) (buf : List Nat) :
    Int × List Nat :=
  let ucpstep := count.2 * ps
  let cols := sizeTofInt dims.2
  let rowstep := cols * ps
  let offset := rowstep + ss0 * rowstep + ss1 * ps
  let readstep : Int := (rowstep : Int) - ((sc1 * ps : Nat) : Int)
  cw_get_raw_loop file ps sc1 readstep ucpstep offset ucpoffset sc0 buf

/-- `cw_get_raw`: zero-fill the caller buffer, apply the navigational shift
and clip the window to the grid when a shift is supplied (returning success
with the zero buffer when the shifted window lies entirely outside), then
read the surviving sub-window row by row.  On the modelled big-endian host
the final byte swap is the identity. -/
def cw_get_raw (file : List Nat) (ps : Nat) (dims : Int × Int)
    (start count : Nat × Nat) (shift : Option (Int × Int)) : Int × List Nat :=
  let len := count.1 * count.2 * ps
  let buf := List.replicate len 0
  match shift with
  | some sh =>
    let ts0 := cwShiftStart start.1 sh.1
    let te0 := cwShiftEnd start.1 sh.1 count.1
    if ts0 > dims.1 - 1 ∨ te0 < 0 then (CW_NOERR, buf)
    else
      let sucp0 := (min 0 ts0).natAbs
      let ts0c := max 0 (min ts0 dims.1)
      let te0c := max 0 (min te0 (dims.1 - 1))
      let sc0 := sizeTofInt (te0c - ts0c + 1)
      let ts1 := cwShiftStart start.2 sh.2
      let te1 := cwShiftEnd start.2 sh.2 count.2
      if ts1 > dims.2 - 1 ∨ te1 < 0 then (CW_NOERR, buf)
      else
        let sucp1 := (min 0 ts1).natAbs
        let ts1c := max 0 (min ts1 dims.2)
        let te1c := max 0 (min te1 (dims.2 - 1))
        let sc1 := sizeTofInt (te1c - ts1c + 1)
        let ucpoffset := (sucp0 * count.2 + sucp1) * ps
        cw_get_raw_read file ps dims count ucpoffset ts0c.toNat ts1c.toNat
          sc0 sc1 buf
  | none =>
    cw_get_raw_read file ps dims count 0 start.1 start.2 count.1 count.2 buf

/-- The row write loop of `cw_put_raw` (in-memory writes always succeed;
only a seek to a negative position can fail, as in the C library). -/
def cw_put_raw_loop (raw : List Nat) (ps countc : Nat) (writestep : Int)
    (ucpstep : Nat) : Nat → Nat → Nat → List Nat → Except Int (List Nat)
  | _pos, _ucp, 0, file => .ok file
  | pos, ucp, r + 1, file =>
    let file1 := writeBytesAt file pos ((raw.drop ucp).take (countc * ps))
    if r = 0 then .ok file1
    else
      let pos1 : Int := (pos : Int) + (countc * ps : Nat) + writestep
      if pos1 < 0 then .error CW_ERR_WRITE_DATA
      else cw_put_raw_loop raw ps countc writestep ucpstep pos1.toNat
        (ucp + ucpstep) r file1

/-- `cw_put_raw`: write a window of raw pixel bytes row by row, with the
same one-row-width header offset and stride as `cw_get_raw`. -/
def cw_put_raw (file : List Nat) (raw : List Nat) (ps : Nat)
    (dims : Int × Int) (start count : Nat × Nat) : Except Int (List Nat) :=
  let ucpstep := count.2 * ps
  let cols := sizeTofInt dims.2
  let rowstep := cols * ps
  let offset := rowstep + start.1 * rowstep + start.2 * ps
  let writestep : Int := (rowstep : Int) - ((count.2 * ps : Nat) : Int)
  cw_put_raw_loop raw ps count.2 writestep ucpstep offset 0 count.1 file

/-! ## 1B decompression (cw_uncompress) -/

/-- Read one channel value of the compressed stream: a byte with the
absolute-value marker starts a 2-byte absolute code; without the marker,
the very first byte of the stream is the corrupt-file error
`CW_ERR_COM_BYTE0`, any later byte is a 1-byte delta code. -/
def cw_uncompress_val (file : List Nat) (pos : Nat) (first : Bool)
    (lastd : Int) : Except Int (Int × Nat) :=
  match file.get? pos with
  | none => .error CW_ERR_READ_DATA
  | some b0 =>
    if CW_COM_ISMVAL b0 ≠ 0 then
      match file.get? (pos + 1) with
      | none => .error CW_ERR_READ_DATA
      | some b1 => .ok (CW_COM_RMVAL b0 b1, pos + 2)
    else if first then .error CW_ERR_COM_BYTE0
    else .ok (CW_COM_RVAL lastd b0, pos + 1)

/-- Decode one row of `n` channel values, threading the stream position and
the previous value. `first` marks the row 0, column 0 position. -/
def cw_uncompress_row (file : List Nat) :
    Nat → Nat → Bool → Int → Except Int (List Int × Nat × Int)
  | 0, pos, _first, lastd => .ok ([], pos, lastd)
  | n + 1, pos, first, lastd =>
    match cw_uncompress_val file pos first lastd with
    | .error e => .error e
    | .ok (v, pos1) =>
      match cw_uncompress_row file n pos1 false v with
      | .error e => .error e
      | .ok (vs, pos2, last2) => .ok (v :: vs, pos2, last2)

/-- The channel read/write loop of `cw_uncompress`: decode each row and
write it (with zero graphics) into the uncompressed working file. -/
def cw_uncompress_data (cfile : List Nat) (dims : Int × Int) (cols : Nat) :
    Nat → Nat → Nat → Int → List Nat → Except Int (List Nat × Nat)
  | 0, _i, pos, _lastd, ufile => .ok (ufile, pos)
  | r + 1, i, pos, lastd, ufile =>
    match cw_uncompress_row cfile cols pos (decide (i = 0)) lastd with
    | .error e => .error e
    | .ok (vals, pos1, lastd1) =>
      let usp := cw_combine_channel (some vals) none
      match cw_put_raw ufile (u16sToBytes usp) 2 dims (i, 0) (1, cols) with
      | .error _ => .error CW_ERR_WRITE_DATA
      | .ok ufile1 => cw_uncompress_data cfile dims cols r (i + 1) pos1 lastd1 ufile1

/-- The graphics read loop for one row, from column `cols - remaining` on:
read a (value, run) pair and fill `min (run+1) remaining` pixels, keeping
the last (value, writes) pair for the spill bookkeeping.  `fuel` bounds the
recursion (each pair fills at least one pixel, so `fuel = cols` suffices). -/
def cw_uncompress_gra_row (cfile : List Nat) :
    Nat → Nat → Nat → Nat × Nat → Except Int (List Nat × Nat × (Nat × Nat))
  | _fuel, 0, pos, bk => .ok ([], pos, bk)
  | 0, _ + 1, pos, bk => .ok ([], pos, bk)
  | fuel + 1, remaining + 1, pos, _bk =>
    match cfile.get? pos, cfile.get? (pos + 1) with
    | some b0, some b1 =>
      let w := min (b1 + 1) (remaining + 1)
      if w = remaining + 1 then .ok (List.replicate w b0, pos + 2, (b1, w))
      else
        match cw_uncompress_gra_row cfile fuel (remaining + 1 - w) (pos + 2) (b1, w) with
        | .error e => .error e
        | .ok (rest, pos1, bk1) => .ok (List.replicate w b0 ++ rest, pos1, bk1)
    | _, _ => .error CW_ERR_READ_DATA

/-- The graphics read/write loop of `cw_uncompress`: per row, fill the run
spilled from the previous row, decode the rest of the row, compute the next
spill as `bytes[1] - k + 1` from the last pair read (stale values from the
previous row when the whole row was spill, as in the C), reread the row's
channel data and rewrite it combined with the graphics.  Where the C reads
`graphics[j-1]` past the row buffer (spill beyond the row width) the model
uses the spilled value, which is what the out-of-bounds C write placed. -/
def cw_uncompress_gra_rows (cfile : List Nat) (dims : Int × Int) (cols : Nat) :
    Nat → Nat → Nat → Nat → Nat → Nat × Nat → List Nat →
    Except Int (List Nat × Nat)
  | 0, _i, pos, _lastg, _spill, _bk, ufile => .ok (ufile, pos)
  | r + 1, i, pos, lastg, spill, bk, ufile =>
    let step :
        Except Int (List Nat × Nat × Nat × (Nat × Nat)) :=
      if spill < cols then
        match cw_uncompress_gra_row cfile cols (cols - spill) pos bk with
        | .error e => .error e
        | .ok (rest, pos1, bk1) =>
          let row := List.replicate spill lastg ++ rest
          .ok (row, pos1, row.getD (cols - 1) 0, bk1)
      else .ok (List.replicate cols lastg, pos, lastg, bk)
    match step with
    | .error e => .error e
    | .ok (row, pos1, lastg1, bk1) =>
      let spill1 := bk1.1 + 1 - bk1.2
      let got := cw_get_raw ufile 2 dims (i, 0) (1, cols) none
      if got.1 ≠ CW_NOERR then .error CW_ERR_READ_DATA
      else
        let data := cw_separate_channel_data (bytesToU16 got.2)
        let usp := cw_combine_channel (some data) (some row)
        match cw_put_raw ufile (u16sToBytes usp) 2 dims (i, 0) (1, cols) with
        | .error _ => .error CW_ERR_WRITE_DATA
        | .ok ufile1 =>
          cw_uncompress_gra_rows cfile dims cols r (i + 1) pos1 lastg1 spill1 bk1 ufile1

/-- `cw_uncompress`: copy the fixed 1024-byte compressed header into a
fresh working file, pad it to the uncompressed header width when that is
larger, then decode the channel stream and the graphics stream into the
working file.  Returns the bytes of the uncompressed working file. -/
def cw_uncompress (dims : Int × Int) (cfile : List Nat) :
    Except Int (List Nat) :=
  let rows := sizeTofInt dims.1
  let columns := sizeTofInt dims.2
  let headlen := CW_HEAD_COMP
  if cfile.length < headlen then .error CW_ERR_READ_DATA
  else
    let head := cfile.take headlen
    let uheadlen := columns * 2
    let ufile0 :=
      if headlen < uheadlen then head ++ List.replicate (uheadlen - headlen) 0
      else head
    match cw_uncompress_data cfile dims columns rows 0 headlen 0 ufile0 with
    | .error e => .error e
    | .ok (ufile1, pos1) =>
      match cw_uncompress_gra_rows cfile dims columns rows 0 pos1 0 0 (0, 0) ufile1 with
      | .error e => .error e
      | .ok (ufile2, _pos2) => .ok ufile2

/-! ## Dataset handles, registry state and typed caller buffers -/

/-- A caller data buffer with its `cw_type`: the public entry points
(`cw_get_vara_float` / `cw_get_vara_uchar` and the put counterparts) pass
only `CW_FLOAT` or `CW_BYTE` buffers. -/
inductive CwData where
  | floats : List ℚ → CwData
  | bytes : List Nat → CwData
deriving DecidableEq

/-- `cw_file_type`: one registry slot.  `disk` is the file `fp` points at
while no uncompressed working copy exists; after `cw_uncompress`, `work`
holds the temporary working file both `fp` and `ufp` point at, and the
original on-disk bytes stay in `disk` (the C closes its stream but never
writes it again before `cw_close`). -/
structure CwFile where
  disk : List Nat
  work : Option (List Nat)
  path : Nat
  defmode : Bool
  wmode : Int
  data_id : Int
  graphics : Int
  dims : Int × Int
  pixel_size : Int
deriving DecidableEq

/-- The stream `cw_files[cwid]->fp` currently designates. -/
def CwFile.fpBytes (f : CwFile) : List Nat :=
  f.work.getD f.disk

/-- The process-wide state: the `cw_files` registry (a 100-slot array) and
the file system as path-to-bytes pairs. -/
structure CwState where
  files : List (Option CwFile)
  fs : List (Nat × List Nat)
deriving DecidableEq

/-- Read `cw_files[cwid]` for a caller-supplied `int` id: `none` is an
access outside the 100-slot array (undefined behaviour in C). -/
def regGet (files : List (Option CwFile)) (cwid : Int) : Option (Option CwFile) :=
  if cwid < 0 then none else files.get? cwid.toNat

/-- Store a handle back into its registry slot. -/
def regSet (st : CwState) (cwid : Int) (f : CwFile) : CwState :=
  { st with files := st.files.set cwid.toNat (some f) }

/-- Look a path up in the file system. -/
def fsGet (fs : List (Nat × List Nat)) (path : Nat) : Option (List Nat) :=
  (fs.find? (fun e => e.1 = path)).map (·.2)

/-- Create or truncate a path. -/
def fsSet (fs : List (Nat × List Nat)) (path : Nat) (bytes : List Nat) :
    List (Nat × List Nat) :=
  (path, bytes) :: fs.filter (fun e => e.1 ≠ path)

/-- The window check of `cw_get_vara` / `cw_put_vara`, with the C operand
conversions: `dims[i]-1` is an `int` converted to `size_t` for the
comparison, and `start + count - 1` is `size_t` arithmetic. -/
def cwIndexBad (dims : Int × Int) (start count : Nat × Nat) : Bool :=
  decide (sizeTofInt (dims.1 - 1) < start.1) ||
  decide (sizeTofInt (dims.2 - 1) < start.2) ||
  decide (sizeTofInt (dims.1 - 1) < szSub1 (start.1 + count.1)) ||
  decide (sizeTofInt (dims.2 - 1) < szSub1 (start.2 + count.2))

/-- The compression check both `cw_get_vara` and `cw_put_vara` run before
touching pixels: for a 2-byte visible/IR dataset with no working copy yet,
read the compression attribute and decompress a 1B file into a fresh
working copy (registering it in the handle); `none` and `flat` pass
through, other codes are unsupported.  Errors leave the handle as it was
(`cw_uncompress` assigns `fp`/`ufp` only on success). -/
def cwCompressionPhase (st : CwState) (cwid : Int) (f : CwFile) :
    Except Int (CwState × CwFile) :=
  if f.work = none ∧
      (f.data_id = CW_DATA_ID_VISIBLE ∨ f.data_id = CW_DATA_ID_IR) ∧
      f.pixel_size = 2 then
    match cw_get_att f.disk CW_O_COMPRESSION_TYPE with
    | none => .error CW_ERR_READ_ATT
    | some compression =>
      if compression = CW_COMPRESSION_TYPE_NONE ∨
          compression = CW_COMPRESSION_TYPE_FLAT then .ok (st, f)
      else if compression = CW_COMPRESSION_TYPE_1B then
        match cw_uncompress f.dims f.disk with
        | .error e => .error e
        | .ok u =>
          let f1 := { f with work := some u }
          .ok (regSet st cwid f1, f1)
      else .error CW_ERR_UNSUP_COMPRESSION_TYPE
  else .ok (st, f)

/-- `cw_cast_frombyte`: cast decoded byte data to the caller type. -/
def cw_cast_frombyte (byte : List Nat) (ty : Int) : Except Int CwData :=
  if ty = CW_BYTE then .ok (.bytes byte)
  else if ty = CW_FLOAT then .ok (.floats (byte.map (fun b => (b : ℚ))))
  else .error CW_ERR_VAR_VALUE

/-- `cw_cast_tofloat` on the typed buffers the public entry points pass
(both the byte and the float case succeed). -/
def cw_cast_tofloat (data : CwData) : List ℚ :=
  match data with
  | .bytes b => b.map (fun x => (x : ℚ))
  | .floats q => q

/-- `cw_get_vara`: get a window of decoded data values.  The result is
`none` when the caller id indexes outside the registry array (C undefined
behaviour); otherwise `(status, decoded output when successful, state)` —
the caller buffer is untouched on every error path of the C code. -/
def cw_get_vara (st : CwState) (cwid varid : Int) (start count : Nat × Nat)
    (ty : Int) : Option (Int × Option CwData × CwState) :=
  match regGet st.files cwid with
  | none => none
  | some none => some (CW_ERR_DATASET_ID, none, st)
  | some (some f) =>
    if f.defmode then some (CW_ERR_DEFINE_MODE, none, st)
    else if cwIndexBad f.dims start count then some (CW_ERR_VAR_INDEX, none, st)
    else
      match cwCompressionPhase st cwid f with
      | .error e => some (e, none, st)
      | .ok (st1, f1) =>
        let fp := f1.fpBytes
        let ps := f1.pixel_size.toNat
        if varid = CW_DATA then
          match cw_get_att fp CW_O_VERTICAL_SHIFT, cw_get_att fp CW_O_HORIZONTAL_SHIFT with
          | some sv, some sh =>
            let got := cw_get_raw fp ps f1.dims start count (some (sv, sh))
            if got.1 ≠ CW_NOERR then some (got.1, none, st1)
            else if f1.data_id = CW_DATA_ID_VISIBLE ∨ f1.data_id = CW_DATA_ID_IR then
              if ty ≠ CW_FLOAT then some (CW_ERR_VAR_VALUE, none, st1)
              else
                match cw_get_att fp CW_O_CALIBRATION_TYPE,
                    cw_get_att fp CW_O_COMPRESSION_TYPE,
                    cw_get_att fp CW_O_CHANNEL_NUMBER with
                | some cal, some comp, some chan =>
                  match cw_decode_channel (bytesToU16 got.2) cal f1.data_id comp chan with
                  | .ok q => some (CW_NOERR, some (.floats q), st1)
                  | .error e => some (e, none, st1)
                | _, _, _ => some (CW_ERR_READ_ATT, none, st1)
            else if f1.data_id = CW_DATA_ID_ANCILLARY then
              if ty ≠ CW_FLOAT then some (CW_ERR_VAR_VALUE, none, st1)
              else
                match cw_get_att fp CW_O_CHANNEL_NUMBER,
                    cw_get_att fp CW_O_COMPRESSION_TYPE with
                | some chan, some comp =>
                  match cw_decode_ancillary (bytesToU16 got.2) chan comp with
                  | .ok q => some (CW_NOERR, some (.floats q), st1)
                  | .error e => some (e, none, st1)
                | _, _ => some (CW_ERR_READ_ATT, none, st1)
            else if f1.data_id = CW_DATA_ID_CLOUD then
              match cw_cast_frombyte got.2 ty with
              | .ok d => some (CW_NOERR, some d, st1)
              | .error e => some (e, none, st1)
            else some (CW_ERR_UNSUP_DATA_ID, none, st1)
          | _, _ => some (CW_ERR_READ_ATT, none, st1)
        else if varid = CW_GRAPHICS then
          if f1.graphics = -1 then some (CW_ERR_VAR_ID, none, st1)
          else if f1.data_id = CW_DATA_ID_VISIBLE ∨ f1.data_id = CW_DATA_ID_IR then
            let got := cw_get_raw fp ps f1.dims start count none
            if got.1 ≠ CW_NOERR then some (got.1, none, st1)
            else
              let ucp := cw_separate_channel_gra (bytesToU16 got.2)
              match cw_cast_frombyte ucp ty with
              | .ok d => some (CW_NOERR, some d, st1)
              | .error e => some (e, none, st1)
          else some (CW_ERR_VAR_ID, none, st1)
        else some (CW_ERR_VAR_ID, none, st1)

/-- Write the handle's current stream back after a pixel write. -/
def CwFile.withFpBytes (f : CwFile) (bytes : List Nat) : CwFile :=
  match f.work with
  | some _ => { f with work := some bytes }
  | none => { f with disk := bytes }

/-- `cw_put_vara`: put a window of data values.  `none` marks the two
undefined behaviours of the C code on these arguments: a caller id outside
the registry array, and the ancillary branch passing the original caller
buffer to `cw_encode_ancillary` cast to `float *` when it holds bytes. -/
def cw_put_vara (st : CwState) (cwid varid : Int) (start count : Nat × Nat)
    (data : CwData) : Option (Int × CwState) :=
  match regGet st.files cwid with
  | none => none
  | some none => some (CW_ERR_DATASET_ID, st)
  | some (some f) =>
    if f.defmode then some (CW_ERR_DEFINE_MODE, st)
    else if cwIndexBad f.dims start count then some (CW_ERR_VAR_INDEX, st)
    else
      match cwCompressionPhase st cwid f with
      | .error e => some (e, st)
      | .ok (st1, f1) =>
        let fp := f1.fpBytes
        let ps := f1.pixel_size.toNat
        match cw_get_att fp CW_O_VERTICAL_SHIFT, cw_get_att fp CW_O_HORIZONTAL_SHIFT with
        | some sv, some sh =>
          if sv ≠ 0 ∨ sh ≠ 0 then some (CW_ERR_WRITE_SHIFT, st1)
          else
            let raw : Option (Except Int (List Nat)) :=
              if varid = CW_DATA then
                if f1.data_id = CW_DATA_ID_VISIBLE ∨ f1.data_id = CW_DATA_ID_IR then
                  let fltp := cw_cast_tofloat data
                  match cw_get_att fp CW_O_CALIBRATION_TYPE with
                  | none => some (.error CW_ERR_READ_ATT)
                  | some cal =>
                    let got := cw_get_raw fp ps f1.dims start count none
                    if got.1 ≠ CW_NOERR then some (.error got.1)
                    else
                      let ucp := cw_separate_channel_gra (bytesToU16 got.2)
                      match cw_encode_channel (some fltp) (some ucp) cal f1.data_id with
                      | .ok usp => some (.ok (u16sToBytes usp))
                      | .error e => some (.error e)
                else if f1.data_id = CW_DATA_ID_ANCILLARY then
                  match cw_get_att fp CW_O_CHANNEL_NUMBER with
                  | none => some (.error CW_ERR_READ_ATT)
                  | some chan =>
                    match data with
                    | .floats q =>
                      match cw_encode_ancillary q chan with
                      | .ok usp => some (.ok (u16sToBytes usp))
                      | .error e => some (.error e)
                    | .bytes _ => none
                else if f1.data_id = CW_DATA_ID_CLOUD then
                  match data with
                  | .bytes b => some (.ok b)
                  | .floats _ => some (.error CW_ERR_VAR_VALUE)
                else some (.error CW_ERR_UNSUP_DATA_ID)
              else if varid = CW_GRAPHICS then
                match data with
                | .floats _ => some (.error CW_ERR_VAR_VALUE)
                | .bytes g =>
                  if f1.graphics = -1 then some (.error CW_ERR_VAR_ID)
                  else if f1.data_id = CW_DATA_ID_VISIBLE ∨ f1.data_id = CW_DATA_ID_IR then
                    let got := cw_get_raw fp ps f1.dims start count none
                    if got.1 ≠ CW_NOERR then some (.error got.1)
                    else
                      let sp := cw_separate_channel_data (bytesToU16 got.2)
                      some (.ok (u16sToBytes (cw_combine_channel (some sp) (some g))))
                  else some (.error CW_ERR_VAR_ID)
              else some (.error CW_ERR_VAR_ID)
            match raw with
            | none => none
            | some (.error e) => some (e, st1)
            | some (.ok rawBytes) =>
              match cw_put_raw fp rawBytes ps f1.dims start count with
              | .error e => some (e, st1)
              | .ok newBytes => some (CW_NOERR, regSet st1 cwid (f1.withFpBytes newBytes))
        | _, _ => some (CW_ERR_READ_ATT, st1)

/-! ## File registry slot search, cw_create and cw_open -/

/-- Occupancy of a registry slot as the C test `cw_files[id] != NULL` sees
it; an index past the array gives `false` (the control flow of the slot
search does not depend on what that out-of-bounds read returns, because
`id < CW_MAX_FILES` is tested after it). -/
def slotOccupied (files : List (Option CwFile)) (i : Nat) : Bool :=
  match files.get? i with
  | some (some _) => true
  | _ => false

/-- The slot-search loop `while (cw_files[id] != NULL && id < CW_MAX_FILES)
id++`, returning the exit id together with the list of indices at which
`cw_files[id]` was evaluated.  The loop leaves at id = 100 at the latest,
after evaluating `cw_files[100]`; `fuel = 101` covers every iteration. -/
def cwFindSlotGo (occ : Nat → Bool) : Nat → Nat → Nat × List Nat
  | 0, id => (id, [id])
  | fuel + 1, id =>
    if occ id ∧ id < CW_MAX_FILES then
      let r := cwFindSlotGo occ fuel (id + 1)
      (r.1, id :: r.2)
    else (id, [id])

/-- The slot search of `cw_create` / `cw_open`, from id 0. -/
def cwFindSlot (occ : Nat → Bool) : Nat × List Nat :=
  cwFindSlotGo occ 101 0

/-- The header bytes `cw_create` writes: the magic byte then zero fill up
to the minimum header length. -/
def cwCreateHeader : List Nat :=
  CW_MAGIC_NUM :: List.replicate (CW_HEAD_MIN - 1) 0

/-- `cw_create`: check the creation mode, find a free slot (failing with
`CW_ERR_MAX_FILES` when the table is full), create or refuse the file per
the clobber mode, register a fresh handle in define mode and write the
header.  Returns `(status, assigned id on success, state)`. -/
def cw_create (st : CwState) (path : Nat) (cmode : Int) :
    Int × Option Nat × CwState :=
  if cmode ≠ CW_CLOBBER ∧ cmode ≠ CW_NOCLOBBER then (CW_ERR_CREATE_MODE, none, st)
  else
    let id := (cwFindSlot (slotOccupied st.files)).1
    if id = CW_MAX_FILES then (CW_ERR_MAX_FILES, none, st)
    else if cmode = CW_NOCLOBBER ∧ (fsGet st.fs path).isSome then
      (CW_ERR_CREATE_EXISTS, none, st)
    else
      let f : CwFile :=
        { disk := cwCreateHeader, work := none, path := path,
          defmode := true, wmode := CW_WRITE, data_id := -1, graphics := -1,
          dims := (-1, -1), pixel_size := -1 }
      (CW_NOERR, some id,
        { files := st.files.set id (some f), fs := fsSet st.fs path cwCreateHeader })

/-- `cw_open`: check the open mode, find a free slot (failing with
`CW_ERR_MAX_FILES` when the table is full), open the file, verify the
magic byte, then read the data id, the dimensions and the per-class pixel
size and graphics flag from the header.  Every failure after the slot
search frees the slot again, leaving the state unchanged. -/
def cw_open (st : CwState) (path : Nat) (omode : Int) :
    Int × Option Nat × CwState :=
  if omode ≠ CW_NOWRITE ∧ omode ≠ CW_WRITE then (CW_ERR_ACCESS_MODE, none, st)
  else
    let id := (cwFindSlot (slotOccupied st.files)).1
    if id = CW_MAX_FILES then (CW_ERR_MAX_FILES, none, st)
    else
      match fsGet st.fs path with
      | none => (CW_ERR_ACCESS, none, st)
      | some bytes =>
        match bytes.get? 0 with
        | none => (CW_ERR_MAGIC_READ, none, st)
        | some magic =>
          if magic ≠ CW_MAGIC_NUM then (CW_ERR_MAGIC, none, st)
          else
            match cw_get_att bytes CW_O_DATA_ID, cw_get_att bytes CW_O_ROWS,
                cw_get_att bytes CW_O_COLUMNS with
            | some did, some rows, some cols =>
              let base : CwFile :=
                { disk := bytes, work := none, path := path, defmode := false,
                  wmode := omode, data_id := did, graphics := -1,
                  dims := (rows, cols), pixel_size := -1 }
              if did = CW_DATA_ID_VISIBLE ∨ did = CW_DATA_ID_IR then
                match cw_get_att bytes CW_O_CHANNEL_PIXEL_SIZE with
                | none => (CW_ERR_READ_ATT, none, st)
                | some ps =>
                  if ps ≠ 2 then (CW_ERR_UNSUP_PIXEL_SIZE, none, st)
                  else
                    match cw_get_att bytes CW_O_COMPRESSION_TYPE with
                    | none => (CW_ERR_READ_ATT, none, st)
                    | some comp =>
                      let g : Int := if comp = CW_COMPRESSION_TYPE_FLAT then -1 else 1
                      let f1 := { base with pixel_size := ps, graphics := g }
                      (CW_NOERR, some id,
                        { st with files := st.files.set id (some f1) })
              else if did = CW_DATA_ID_ANCILLARY then
                match cw_get_att bytes CW_O_ANCILLARY_PIXEL_SIZE with
                | none => (CW_ERR_READ_ATT, none, st)
                | some ps =>
                  if ps ≠ 2 then (CW_ERR_UNSUP_PIXEL_SIZE, none, st)
                  else
                    let f1 := { base with pixel_size := ps }
                    (CW_NOERR, some id,
                      { st with files := st.files.set id (some f1) })
              else if did = CW_DATA_ID_CLOUD then
                let f1 := { base with pixel_size := (1 : Int) }
                (CW_NOERR, some id,
                  { st with files := st.files.set id (some f1) })
              else (CW_ERR_UNSUP_DATA_ID, none, st)
            | _, _, _ => (CW_ERR_READ_ATT, none, st)

/-! ## Map projection transforms (cwproj.c), over the reals

The `double` arithmetic of cwproj.c is embedded over `ℝ`; note that the
source uses its own constant `PI = 3.141592654` (not the exact π) in the
degree/radian conversions, which the embedding reproduces exactly. -/

namespace CwProj

/-- The `PI` constant of cwproj.c (a decimal approximation, kept exact). -/
noncomputable def PI : ℝ := 3.141592654

/-- Earth radius constant `R` (km). -/
noncomputable def R : ℝ := 6371.2

/-- The Mercator latitude constant `B`. -/
noncomputable def B : ℝ := 4.14159203

/-- Polar grid constant `JMAX`. -/
noncomputable def JMAX : ℝ := 24385

/-- Polar grid image-center constant `ICEN`. -/
noncomputable def ICEN : ℝ := 12193

/-- `DTOR(a)`: degrees to radians with the source's `PI`. -/
noncomputable def DTOR (a : ℝ) : ℝ := a * PI / 180

/-- `RTOD(a)`: radians to degrees with the source's `PI`. -/
noncomputable def RTOD (a : ℝ) : ℝ := a * 180 / PI

/-- The longitude renormalization macro `LONR`: one conditional wrap of
360 degrees. -/
noncomputable def LONR (a : ℝ) : ℝ :=
  if a ≥ 180 then a - 360 else if a < -180 then a + 360 else a

/-- `ijxy`: image (i, j) to grid (x, y), shared by all projections. -/
noncomputable def ijxy (i j : ℝ) (res ioff joff : ℝ) : ℝ × ℝ :=
  ((i + ioff - 1) * res, (j + joff - 1) * res)

/-- `xyij`: grid (x, y) to image (i, j), the exact inverse of `ijxy`. -/
noncomputable def xyij (x y : ℝ) (res ioff joff : ℝ) : ℝ × ℝ :=
  (x / res - ioff + 1, y / res - joff + 1)

/-- `cw_polar_ijll`: polar stereographic image (i, j) to (lat, lon).
The static `scale` initialization is evaluated to its value. -/
noncomputable def cw_polar_ijll (i j : ℝ) (hem : Int) (plon res ioff joff : ℝ) :
    ℝ × ℝ :=
  let xy := ijxy i j res ioff joff
  let x := xy.1
  let y := if hem = -1 then (JMAX + 1) - xy.2 else xy.2
  let scale := (1 + Real.sin (DTOR 60)) * R
  let dist := Real.sqrt ((x - ICEN) ^ 2 + (y - ICEN) ^ 2)
  let lat := 90 - RTOD (2 * Real.arctan (dist / scale))
  let plon1 := LONR plon
  let signx : ℝ := if x - ICEN < 0 then -1 else 1
  let lon := RTOD (Real.arccos ((y - ICEN) / dist)) * signx + plon1
  (lat, LONR lon)

/-- `cw_mercator_ijll`: Mercator image (i, j) to (lat, lon).  No longitude
renormalization is applied in the source. -/
noncomputable def cw_mercator_ijll (i j : ℝ) (hem : Int) (res ioff joff : ℝ) :
    ℝ × ℝ :=
  let xy := ijxy i j res ioff joff
  let lat0 := RTOD (2 * (Real.arctan (Real.exp |xy.2 / R - B|) - PI / 4))
  let lat := if hem = -1 then -|lat0| else |lat0|
  (lat, RTOD (xy.1 / R))

/-- `cw_linear_ijll`: linear image (i, j) to (lat, lon).  No longitude
renormalization is applied in the source. -/
noncomputable def cw_linear_ijll (i j : ℝ) (res ioff joff : ℝ) : ℝ × ℝ :=
  let xy := ijxy i j res ioff joff
  (-xy.2, xy.1)

end CwProj

deriving instance DecidableEq for Except

/-! ## Concrete fixtures used by the closed witness theorems -/

/-- A cloud-class dataset handle over a fresh minimum header. -/
def demoCloudFile : CwFile :=
  { disk := CW_MAGIC_NUM :: List.replicate 135 0, work := none, path := 0,
    defmode := false, wmode := CW_WRITE, data_id := CW_DATA_ID_CLOUD,
    graphics := -1, dims := (2, 2), pixel_size := 1 }

/-- A registry with the one handle `demoCloudFile` in slot 0. -/
def demoState : CwState := { files := [some demoCloudFile], fs := [] }

/-- A minimum header whose horizontal_shift attribute (offset 84) is 1. -/
def demoShiftHeader : List Nat :=
  CW_MAGIC_NUM :: (List.replicate 83 0 ++ [0, 1] ++ List.replicate 50 0)

/-- A cloud-class handle over `demoShiftHeader`. -/
def demoShiftFile : CwFile :=
  { disk := demoShiftHeader, work := none, path := 1, defmode := false,
    wmode := CW_WRITE, data_id := CW_DATA_ID_CLOUD, graphics := -1,
    dims := (2, 2), pixel_size := 1 }

/-- A registry with the one handle `demoShiftFile` in slot 0. -/
def demoShiftState : CwState := { files := [some demoShiftFile], fs := [] }

/-- A registry state with all 100 slots occupied. -/
def demoFullState : CwState :=
  { files := List.replicate 100 (some demoCloudFile), fs := [] }

/-- A 1B-compressed file whose first channel byte (offset 1024) lacks the
absolute-value marker bit. -/
def demoCorruptCFile : List Nat := List.replicate CW_HEAD_COMP 0 ++ [0x10]

/-! ## Helper lemmas -/

theorem toShort_eq_of_range (n : Int) (h1 : -32768 ≤ n) (h2 : n ≤ 32767) :
    toShort n = n := by
  simp only [toShort]
  split <;> omega

theorem toUShort_eq_of_range (n : Int) (h1 : 0 ≤ n) (h2 : n ≤ 65535) :
    toUShort n = n.toNat := by
  simp only [toUShort]
  omega

theorem roundf_intCast (n : Int) : roundf (n : ℚ) = n := by
  unfold roundf
  split
  · rw [show ((n : ℚ) + 1 / 2) = (1 / 2 : ℚ) + n by ring, Int.floor_add_int]
    norm_num
  · rw [show ((n : ℚ) - 1 / 2) = (-(1 / 2) : ℚ) + n by ring, Int.ceil_add_int]
    norm_num

theorem nat_le_or_right (a b : Nat) : b ≤ a ||| b :=
  Nat.le_of_testBit (by intro i h; simp [Nat.testBit_or, h])

theorem CW_COM_WVAL_B1_ge (a : Int) : 128 ≤ CW_COM_WVAL_B1 a := by
  unfold CW_COM_WVAL_B1
  exact nat_le_or_right _ _

theorem CW_COM_WVAL_B1_lt (a : Int) : CW_COM_WVAL_B1 a < 256 := by
  unfold CW_COM_WVAL_B1
  have h1 : (a.natAbs % 65536) >>> 8 < 2 ^ 8 := by
    rw [Nat.shiftRight_eq_div_pow]
    omega
  have h2 : (if a < 0 then 0x08 else 0) < 2 ^ 8 := by split <;> norm_num
  exact Nat.or_lt_two_pow (Nat.or_lt_two_pow h1 h2) (by norm_num)

theorem CW_COM_WVAL_lt (a : Int) : CW_COM_WVAL a < 128 := by
  unfold CW_COM_WVAL
  have := Nat.and_le_right
    (n := (a.natAbs % 256) ||| (if a < 0 then 0x40 else 0)) (m := 0x7F)
  omega

theorem CW_COM_ISMVAL_WVAL_B1 (a : Int) : CW_COM_ISMVAL (CW_COM_WVAL_B1 a) ≠ 0 := by
  unfold CW_COM_ISMVAL CW_COM_WVAL_B1
  intro hz
  have h7 := congrArg (fun n => n.testBit 7) hz
  simp [Nat.testBit_and, Nat.testBit_or] at h7
  exact absurd (h7 (Or.inr (by decide))) (by decide)

theorem CW_COM_ISMVAL_WVAL (a : Int) : CW_COM_ISMVAL (CW_COM_WVAL a) = 0 := by
  unfold CW_COM_ISMVAL CW_COM_WVAL
  rw [Nat.and_assoc, (show (127 : Nat) &&& 128 = 0 by rfl)]
  simp

/-! ## Claim theorems -/

/-- Claim C1 (code bug): the decode-then-encode round trip fails on the
ancillary scan-time path.  Raw code 100 (a valid packed HHMM value, 1 hour
0 minutes) decodes to 53/20 hours — because `cw_decode_ancillary` computes
`minutes = (short) usp[i] - hours` instead of subtracting `hours*100` — and
`cw_encode_ancillary` then encodes that value back to raw code 239, not
100. -/
theorem cw_scan_time_roundtrip_fails :
    cw_decode_ancillary [100] CW_CHANNEL_NUMBER_SCAN_TIME CW_COMPRESSION_TYPE_1B =
      .ok [53 / 20] ∧
    cw_encode_ancillary [53 / 20] CW_CHANNEL_NUMBER_SCAN_TIME = .ok [239] ∧
    (239 : Nat) ≠ 100 := by
  refine ⟨?_, ?_, by decide⟩ <;> with_unfolding_all exact rfl

/-- Claim C2 (code bug): `cw_decode_ancillary` on the scan-time channel
does not decode the packed HHMM value 1234 to 12 + 34/60 hours; it
computes `minutes = 1234 - 1234/100 = 1222` and returns 971/30
(≈ 32.37 hours) instead of the 377/30 (≈ 12.57) the HHMM reading gives. -/
theorem cw_scan_time_decode_wrong :
    cw_decode_ancillary [1234] CW_CHANNEL_NUMBER_SCAN_TIME CW_COMPRESSION_TYPE_1B =
      .ok [971 / 30] ∧
    (((1234 / 100 : Nat) : ℚ) + ((1234 % 100 : Nat) : ℚ) / 60 = 377 / 30) ∧
    (971 / 30 : ℚ) ≠ 377 / 30 := by
  refine ⟨by with_unfolding_all exact rfl, by norm_num, by norm_num⟩

/-- Claim C4: in the 1B channel compression of `cw_compress`, the value at
row 0, column 0 is always written as the 2-byte absolute code (whose first
byte carries the marker bit, the sign bit and the magnitude high bits);
every later value whose difference from the immediately preceding value
has magnitude at most 63 is written as the single delta byte, every other
as the 2-byte absolute code; and the marker bit 0x80 of the first byte
distinguishes the two encodings (set on every absolute first byte, clear
on every delta byte). -/
theorem cw_compress_1b_format :
    (∀ (d : Int) (ds : List Int), cw_compress_channel (d :: ds) =
        CW_COM_WVAL_B1 d :: CW_COM_WVAL_B2 d :: cw_compress_rest d ds) ∧
    (∀ lastd d : Int, (d - lastd).natAbs ≤ 63 →
        cw_compress_step lastd d = [CW_COM_WVAL (d - lastd)]) ∧
    (∀ lastd d : Int, 63 < (d - lastd).natAbs →
        cw_compress_step lastd d = [CW_COM_WVAL_B1 d, CW_COM_WVAL_B2 d]) ∧
    (∀ a : Int, CW_COM_ISMVAL (CW_COM_WVAL_B1 a) ≠ 0 ∧
        128 ≤ CW_COM_WVAL_B1 a ∧ CW_COM_WVAL_B1 a < 256) ∧
    (∀ a : Int, CW_COM_ISMVAL (CW_COM_WVAL a) = 0 ∧ CW_COM_WVAL a < 128) := by
  refine ⟨fun d ds => rfl, fun lastd d h => ?_, fun lastd d h => ?_,
    fun a => ⟨CW_COM_ISMVAL_WVAL_B1 a, CW_COM_WVAL_B1_ge a, CW_COM_WVAL_B1_lt a⟩,
    fun a => ⟨CW_COM_ISMVAL_WVAL a, CW_COM_WVAL_lt a⟩⟩
  · unfold cw_compress_step
    rw [if_neg (by omega)]
  · unfold cw_compress_step
    rw [if_pos h]

theorem LONR_mem_Ico (a : ℝ) (h1 : -540 < a) (h2 : a < 540) :
    CwProj.LONR a ∈ Set.Ico (-180 : ℝ) 180 := by
  unfold CwProj.LONR
  split_ifs with hA hB <;> simp only [Set.mem_Ico] <;> constructor <;> linarith

theorem polar_lon_bound_aux (w s p : ℝ) (hw1 : 0 ≤ w) (hw2 : w ≤ 230)
    (hs : s = -1 ∨ s = 1) (hp1 : -180 ≤ p) (hp2 : p < 180) :
    CwProj.LONR (w * s + p) ∈ Set.Ico (-180 : ℝ) 180 := by
  apply LONR_mem_Ico <;> rcases hs with h | h <;> subst h <;> nlinarith

theorem RTOD_arccos_bound (z : ℝ) :
    0 ≤ CwProj.RTOD (Real.arccos z) ∧ CwProj.RTOD (Real.arccos z) ≤ 230 := by
  have h0 := Real.arccos_nonneg z
  have h4 : Real.arccos z ≤ 4 := le_trans (Real.arccos_le_pi z) Real.pi_le_four
  have hPI : (3.14 : ℝ) ≤ CwProj.PI := by norm_num [CwProj.PI]
  have hPI0 : (0 : ℝ) < CwProj.PI := by linarith
  unfold CwProj.RTOD
  constructor
  · exact div_nonneg (by nlinarith) (le_of_lt hPI0)
  · rw [div_le_iff₀ hPI0]
    nlinarith

/-- Claim C3, counterexample: the linear and Mercator pixel-to-geographic
conversions do not normalize longitude into [-180, 180): the linear
conversion at pixel i = 200 (resolution 1, offsets 1) returns longitude
200, and the Mercator conversion at i = 2·PI·R returns longitude 360. -/
theorem cw_ijll_lon_unnormalized :
    (CwProj.cw_linear_ijll 200 1 1 1 1).2 ∉ Set.Ico (-180 : ℝ) 180 ∧
    (CwProj.cw_mercator_ijll (2 * CwProj.PI * CwProj.R) 1 1 1 1 1).2 ∉
      Set.Ico (-180 : ℝ) 180 := by
  constructor
  · norm_num [CwProj.cw_linear_ijll, CwProj.ijxy, Set.mem_Ico]
  · have hR : CwProj.R ≠ 0 := by norm_num [CwProj.R]
    have hPI : CwProj.PI ≠ 0 := by norm_num [CwProj.PI]
    have hlon : (CwProj.cw_mercator_ijll (2 * CwProj.PI * CwProj.R) 1 1 1 1 1).2 = 360 := by
      simp only [CwProj.cw_mercator_ijll, CwProj.ijxy, CwProj.RTOD]
      field_simp
      ring
    rw [hlon]
    norm_num [Set.mem_Ico]

/-- Claim C3, amended: only the polar-stereographic pixel-to-geographic
conversion normalizes its longitude.  For every pixel (i, j), hemisphere,
resolution and offsets, and every prime longitude already in [-180, 180),
the longitude `cw_polar_ijll` returns lies in [-180, 180); the Mercator
and linear conversions return their longitudes unnormalized. -/
theorem cw_polar_ijll_lon_normalized (i j : ℝ) (hem : Int)
    (plon res ioff joff : ℝ) (h1 : -180 ≤ plon) (h2 : plon < 180) :
    (CwProj.cw_polar_ijll i j hem plon res ioff joff).2 ∈
      Set.Ico (-180 : ℝ) 180 := by
  have hplon : CwProj.LONR plon = plon := by
    unfold CwProj.LONR
    rw [if_neg (by linarith), if_neg (by linarith)]
  simp only [CwProj.cw_polar_ijll]
  rw [hplon]
  apply polar_lon_bound_aux _ _ _ _ _ _ h1 h2
  · exact (RTOD_arccos_bound _).1
  · exact (RTOD_arccos_bound _).2
  · split
    · exact Or.inl rfl
    · exact Or.inr rfl

theorem cw_polar_ijll_lon_normalized_witness :
    (CwProj.cw_polar_ijll 1 1 1 0 1.47 0 0).2 ∈ Set.Ico (-180 : ℝ) 180 :=
  cw_polar_ijll_lon_normalized 1 1 1 0 1.47 0 0 (by norm_num) (by norm_num)

/-- Claim C5: a raw read with a non-null navigational shift whose
shifted-and-clipped source window lies entirely outside the grid extent —
the shifted start past the last row or column, or the shifted end before
row or column 0, exactly as `cw_get_raw` computes them — returns the
success status `CW_NOERR` with the caller's entire output buffer
zero-filled. -/
theorem cw_get_raw_outside_window (file : List Nat) (ps : Nat)
    (dims : Int × Int) (start count : Nat × Nat) (sh : Int × Int)
    (h : cwShiftStart start.1 sh.1 > dims.1 - 1 ∨
         cwShiftEnd start.1 sh.1 count.1 < 0 ∨
         cwShiftStart start.2 sh.2 > dims.2 - 1 ∨
         cwShiftEnd start.2 sh.2 count.2 < 0) :
    cw_get_raw file ps dims start count (some sh) =
      (CW_NOERR, List.replicate (count.1 * count.2 * ps) 0) := by
  simp only [cw_get_raw]
  split_ifs with h1 h2
  · rfl
  · rfl
  · exfalso
    rcases h with h | h | h | h
    · exact h1 (Or.inl h)
    · exact h1 (Or.inr h)
    · exact h2 (Or.inl h)
    · exact h2 (Or.inr h)

theorem cw_get_raw_outside_window_witness :
    cw_get_raw [] 2 (10, 20) (0, 0) (2, 3) (some (50, 0)) =
      (CW_NOERR, List.replicate 12 0) :=
  cw_get_raw_outside_window [] 2 (10, 20) (0, 0) (2, 3) (50, 0)
    (Or.inr (Or.inl (by decide)))

theorem cwIndexBad_of_overflow (dims : Int × Int) (start count : Nat × Nat)
    (hr1 : 1 ≤ dims.1) (hr2 : dims.1 ≤ 32767)
    (hc1 : 1 ≤ dims.2) (hc2 : dims.2 ≤ 32767)
    (hs1 : start.1 + count.1 < 2 ^ 64) (hs2 : start.2 + count.2 < 2 ^ 64)
    (h : (start.1 : Int) > dims.1 - 1 ∨ (start.2 : Int) > dims.2 - 1 ∨
         (start.1 : Int) + count.1 - 1 > dims.1 - 1 ∨
         (start.2 : Int) + count.2 - 1 > dims.2 - 1) :
    cwIndexBad dims start count = true := by
  simp only [cwIndexBad, sizeTofInt, szSub1, Bool.or_eq_true, decide_eq_true_eq]
  split_ifs <;> omega

/-- Claim C6: a window request on a registered dataset that is not in define
mode, whose start row/column exceeds the declared dimension minus one or
whose start plus count minus one exceeds the declared dimension minus one,
makes `cw_get_vara` and `cw_put_vara` return `CW_ERR_VAR_INDEX` with the
state unchanged and (for the get) the caller buffer untouched — the check
precedes every read or write of pixel data, so no partial transfer
happens. -/
theorem cw_vara_index_out_of_range (st : CwState) (cwid : Int) (f : CwFile)
    (varid : Int) (start count : Nat × Nat) (ty : Int) (data : CwData)
    (hreg : regGet st.files cwid = some (some f))
    (hdef : f.defmode = false)
    (hr1 : 1 ≤ f.dims.1) (hr2 : f.dims.1 ≤ 32767)
    (hc1 : 1 ≤ f.dims.2) (hc2 : f.dims.2 ≤ 32767)
    (hs1 : start.1 + count.1 < 2 ^ 64) (hs2 : start.2 + count.2 < 2 ^ 64)
    (h : (start.1 : Int) > f.dims.1 - 1 ∨ (start.2 : Int) > f.dims.2 - 1 ∨
         (start.1 : Int) + count.1 - 1 > f.dims.1 - 1 ∨
         (start.2 : Int) + count.2 - 1 > f.dims.2 - 1) :
    cw_get_vara st cwid varid start count ty =
      some (CW_ERR_VAR_INDEX, none, st) ∧
    cw_put_vara st cwid varid start count data =
      some (CW_ERR_VAR_INDEX, st) := by
  have hbad := cwIndexBad_of_overflow f.dims start count hr1 hr2 hc1 hc2 hs1 hs2 h
  constructor
  · simp [cw_get_vara, hreg, hdef, hbad]
  · simp [cw_put_vara, hreg, hdef, hbad]

theorem cw_vara_index_out_of_range_witness :
    cw_get_vara demoState 0 CW_DATA (5, 0) (1, 1) CW_FLOAT =
      some (CW_ERR_VAR_INDEX, none, demoState) ∧
    cw_put_vara demoState 0 CW_DATA (5, 0) (1, 1) (.bytes [0]) =
      some (CW_ERR_VAR_INDEX, demoState) :=
  cw_vara_index_out_of_range demoState 0 demoCloudFile CW_DATA (5, 0) (1, 1)
    CW_FLOAT (.bytes [0]) rfl rfl (by decide) (by decide) (by decide)
    (by decide) (by decide) (by decide) (Or.inl (by decide))

theorem cwCompressionPhase_disk_eq (st : CwState) (cwid : Int)
    (f f1 : CwFile) (st1 : CwState)
    (h : cwCompressionPhase st cwid f = .ok (st1, f1)) : f1.disk = f.disk := by
  unfold cwCompressionPhase at h
  split at h
  · split at h
    · exact absurd h (by simp)
    · split_ifs at h
      · cases h
        rfl
      · split at h
        · exact absurd h (by simp)
        · cases h
          rfl
  · cases h
    rfl

/-- Claim C7: a pixel write through `cw_put_vara` — any variable id, any
data class, any caller buffer — on a dataset whose header carries a
non-zero vertical or horizontal navigational shift is rejected with
`CW_ERR_WRITE_SHIFT` before any pixel is written: the call returns the
state the (read-only) compression phase produced, and the dataset's
on-disk bytes are exactly those it started with. -/
theorem cw_put_vara_shift_rejected (st : CwState) (cwid : Int) (f : CwFile)
    (varid : Int) (start count : Nat × Nat) (data : CwData)
    (st1 : CwState) (f1 : CwFile) (sv sh : Int)
    (hreg : regGet st.files cwid = some (some f))
    (hdef : f.defmode = false)
    (hidx : cwIndexBad f.dims start count = false)
    (hphase : cwCompressionPhase st cwid f = .ok (st1, f1))
    (hv : cw_get_att f1.fpBytes CW_O_VERTICAL_SHIFT = some sv)
    (hh : cw_get_att f1.fpBytes CW_O_HORIZONTAL_SHIFT = some sh)
    (hnz : sv ≠ 0 ∨ sh ≠ 0) :
    cw_put_vara st cwid varid start count data =
      some (CW_ERR_WRITE_SHIFT, st1) ∧
    f1.disk = f.disk := by
  refine ⟨?_, cwCompressionPhase_disk_eq st cwid f f1 st1 hphase⟩
  have hnz1 : (sv ≠ 0 ∨ sh ≠ 0) = True := by simp [hnz]
  simp [cw_put_vara, hreg, hdef, hidx, hphase, hv, hh, hnz1]

theorem cw_put_vara_shift_rejected_witness :
    cw_put_vara demoShiftState 0 CW_DATA (0, 0) (1, 1) (.bytes [7]) =
      some (CW_ERR_WRITE_SHIFT, demoShiftState) ∧
    demoShiftFile.disk = demoShiftFile.disk :=
  cw_put_vara_shift_rejected demoShiftState 0 demoShiftFile CW_DATA (0, 0)
    (1, 1) (.bytes [7]) demoShiftState demoShiftFile 0 1 rfl rfl (by decide)
    rfl (by decide) (by decide) (Or.inr (by decide))

/-- Claim C8: decompressing a 1B file whose very first channel-stream byte
(the value for row 0, column 0, at offset `CW_HEAD_COMP`) lacks the
absolute-value marker bit makes `cw_uncompress` fail with the
corrupt-compressed-file error `CW_ERR_COM_BYTE0`; a byte without the
marker at any later position is instead decoded as a 1-byte delta
relative to the previous value. -/
theorem cw_uncompress_bad_byte0 (dims : Int × Int) (cfile : List Nat)
    (b0 : Nat)
    (hr1 : 1 ≤ dims.1) (hr2 : dims.1 ≤ 32767)
    (hc1 : 1 ≤ dims.2) (hc2 : dims.2 ≤ 32767)
    (hlen : CW_HEAD_COMP ≤ cfile.length)
    (hb : cfile.get? CW_HEAD_COMP = some b0)
    (hm : CW_COM_ISMVAL b0 = 0) :
    cw_uncompress dims cfile = .error CW_ERR_COM_BYTE0 ∧
    (∀ (pos : Nat) (lastd : Int) (b : Nat), cfile.get? pos = some b →
      CW_COM_ISMVAL b = 0 →
      cw_uncompress_val cfile pos false lastd =
        .ok (CW_COM_RVAL lastd b, pos + 1)) := by
  have hrows : 1 ≤ sizeTofInt dims.1 := by simp only [sizeTofInt]; omega
  have hcols : 1 ≤ sizeTofInt dims.2 := by simp only [sizeTofInt]; omega
  have hval : cw_uncompress_val cfile CW_HEAD_COMP true 0 =
      .error CW_ERR_COM_BYTE0 := by
    unfold cw_uncompress_val
    rw [hb]
    simp [hm]
  have hrow : cw_uncompress_row cfile (sizeTofInt dims.2) CW_HEAD_COMP true 0 =
      .error CW_ERR_COM_BYTE0 := by
    obtain ⟨c, hc⟩ := Nat.exists_eq_add_of_le hcols
    rw [show sizeTofInt dims.2 = c + 1 by omega, cw_uncompress_row, hval]
  have hdata : ∀ uf, cw_uncompress_data cfile dims (sizeTofInt dims.2)
      (sizeTofInt dims.1) 0 CW_HEAD_COMP 0 uf = .error CW_ERR_COM_BYTE0 := by
    intro uf
    obtain ⟨r, hr⟩ := Nat.exists_eq_add_of_le hrows
    rw [show sizeTofInt dims.1 = r + 1 by omega, cw_uncompress_data]
    simp [hrow]
  constructor
  · simp only [cw_uncompress]
    rw [if_neg (Nat.not_lt.mpr hlen), hdata _]
  · intro pos lastd b hgb hmb
    unfold cw_uncompress_val
    rw [hgb]
    simp [hmb]

set_option maxRecDepth 10000 in
theorem cw_uncompress_bad_byte0_witness :
    cw_uncompress (1, 1) demoCorruptCFile = .error CW_ERR_COM_BYTE0 ∧
    (∀ (pos : Nat) (lastd : Int) (b : Nat),
      demoCorruptCFile.get? pos = some b → CW_COM_ISMVAL b = 0 →
      cw_uncompress_val demoCorruptCFile pos false lastd =
        .ok (CW_COM_RVAL lastd b, pos + 1)) :=
  cw_uncompress_bad_byte0 (1, 1) demoCorruptCFile 0x10 (by decide) (by decide)
    (by decide) (by decide) (by decide) (by decide) (by decide)

theorem cwFindSlotGo_full (occ : Nat → Bool)
    (hocc : ∀ i, i < CW_MAX_FILES → occ i = true) :
    ∀ (fuel id : Nat), 101 ≤ id + fuel → id ≤ 100 →
      (cwFindSlotGo occ fuel id).1 = 100 := by
  intro fuel
  induction fuel with
  | zero => intro id h1 h2; omega
  | succ n ih =>
    intro id h1 h2
    rw [cwFindSlotGo]
    by_cases hid : id < 100
    · have hoc : occ id = true := hocc id (by simpa [CW_MAX_FILES] using hid)
      rw [if_pos ⟨hoc, by simpa [CW_MAX_FILES] using hid⟩]
      simpa using ih (id + 1) (by omega) (by omega)
    · have hid100 : id = 100 := by omega
      subst hid100
      rw [if_neg (fun hcon => absurd hcon.2 (by simp [CW_MAX_FILES]))]

theorem cwFindSlot_full (occ : Nat → Bool)
    (hocc : ∀ i, i < CW_MAX_FILES → occ i = true) :
    (cwFindSlot occ).1 = CW_MAX_FILES :=
  cwFindSlotGo_full occ hocc 101 0 (by omega) (by omega)

/-- Claim C9: when every one of the 100 registry slots is occupied,
`cw_create` (in either creation mode) and `cw_open` (in either access
mode) fail with the maximum-open-files error `CW_ERR_MAX_FILES` and do not
register a new dataset: the state is returned unchanged, so the number of
concurrently open datasets never exceeds `CW_MAX_FILES`. -/
theorem cw_create_open_max_files (st : CwState) (path : Nat)
    (cmode omode : Int)
    (hfull : ∀ i, i < CW_MAX_FILES → slotOccupied st.files i = true)
    (hcmode : cmode = CW_CLOBBER ∨ cmode = CW_NOCLOBBER)
    (homode : omode = CW_NOWRITE ∨ omode = CW_WRITE) :
    cw_create st path cmode = (CW_ERR_MAX_FILES, none, st) ∧
    cw_open st path omode = (CW_ERR_MAX_FILES, none, st) := by
  have hid := cwFindSlot_full (slotOccupied st.files) hfull
  have hcm : ¬(cmode ≠ CW_CLOBBER ∧ cmode ≠ CW_NOCLOBBER) := by tauto
  have hom : ¬(omode ≠ CW_NOWRITE ∧ omode ≠ CW_WRITE) := by tauto
  constructor
  · simp only [cw_create]
    rw [if_neg hcm, hid, if_pos rfl]
  · simp only [cw_open]
    rw [if_neg hom, hid, if_pos rfl]

set_option maxRecDepth 10000 in
theorem cw_create_open_max_files_witness :
    cw_create demoFullState 0 CW_CLOBBER = (CW_ERR_MAX_FILES, none, demoFullState) ∧
    cw_open demoFullState 0 CW_NOWRITE = (CW_ERR_MAX_FILES, none, demoFullState) :=
  cw_create_open_max_files demoFullState 0 CW_CLOBBER CW_NOWRITE (by decide)
    (Or.inl rfl) (Or.inl rfl)

set_option maxRecDepth 10000 in
/-- Claim C10 (code bug): accesses to the `cw_files` registry do go outside
its 100-slot bounds.  With every slot occupied, the slot-search loop of
`cw_create` / `cw_open` evaluates `cw_files[id]` at id = `CW_MAX_FILES`
(the probe list of the loop contains 100); and the public operations index
`cw_files[cwid]` with the caller-supplied id unchecked, so ids 100 or -1
read outside the table (the modelled undefined behaviour `none`) instead
of returning the invalid-dataset-id error. -/
theorem cw_registry_out_of_bounds :
    (cwFindSlot (slotOccupied demoFullState.files)).2.contains CW_MAX_FILES = true ∧
    cw_get_vara demoFullState 100 CW_DATA (0, 0) (1, 1) CW_FLOAT = none ∧
    cw_get_vara demoFullState (-1) CW_DATA (0, 0) (1, 1) CW_FLOAT = none ∧
    cw_put_vara demoFullState 100 CW_DATA (0, 0) (1, 1) (.bytes [0]) = none := by
  refine ⟨by decide, rfl, rfl, rfl⟩

/-! ## Supporting round-trip facts for the non-flat calibration paths

These complement the scan-time failure: on the raw, visible, IR and
ancillary-angle paths the decode-then-encode round trip does return the
original raw code, and codes decoding to the bad value encode to 0. -/

theorem cw_raw_roundtrip (comp : Int) (hc : comp ≠ CW_COMPRESSION_TYPE_FLAT)
    (c : Int) (h1 : 1 ≤ c) (h2 : c ≤ 1024) :
    cw_uncal_raw_1 (cw_cal_raw_1 comp c) = c := by
  have hval : cw_cal_raw_1 comp c = (c : ℚ) - 1 := by
    simp only [cw_cal_raw_1]
    rw [if_neg hc, if_neg (by omega)]
  have hnb : (c : ℚ) - 1 ≠ CW_BADVAL := by
    simp only [CW_BADVAL]
    intro hbad
    have hc9 : (c : ℚ) = -998 := by linarith
    have : c = -998 := by exact_mod_cast hc9
    omega
  rw [hval]
  simp only [cw_uncal_raw_1]
  rw [if_neg hnb, show ((c : ℚ) - 1) = ((c - 1 : Int) : ℚ) by push_cast; ring,
    roundf_intCast, toShort_eq_of_range (c - 1) (by omega) (by omega),
    toShort_eq_of_range (c - 1 + 1) (by omega) (by omega), if_neg (by omega)]
  omega

theorem cw_visible_roundtrip (comp : Int)
    (hc : comp ≠ CW_COMPRESSION_TYPE_FLAT)
    (c : Int) (h1 : 1 ≤ c) (h2 : c ≤ 2047) :
    cw_uncal_visible_1 (cw_cal_visible_1 comp c) = c := by
  have hval : cw_cal_visible_1 comp c = ((c : ℚ) - 1) / 20.47 := by
    simp only [cw_cal_visible_1]
    rw [if_neg hc, if_neg (by omega)]
  have hge : (0 : ℚ) ≤ ((c : ℚ) - 1) / 20.47 := by
    apply div_nonneg
    · have hcq : (1 : ℚ) ≤ (c : ℚ) := by exact_mod_cast h1
      linarith
    · norm_num
  have hnb : ((c : ℚ) - 1) / 20.47 ≠ CW_BADVAL := by
    simp only [CW_BADVAL]
    intro hbad
    rw [hbad] at hge
    norm_num at hge
  have hmul : ((c : ℚ) - 1) / 20.47 * 20.47 = ((c - 1 : Int) : ℚ) := by
    push_cast
    field_simp
  rw [hval]
  simp only [cw_uncal_visible_1]
  rw [if_neg hnb, hmul, roundf_intCast,
    toShort_eq_of_range (c - 1) (by omega) (by omega),
    toShort_eq_of_range (c - 1 + 1) (by omega) (by omega), if_neg (by omega)]
  omega

theorem cw_visible_badval_to_zero (comp : Int)
    (hc : comp ≠ CW_COMPRESSION_TYPE_FLAT)
    (c : Int) (h : c < 1 ∨ c > 2047) :
    cw_uncal_visible_1 (cw_cal_visible_1 comp c) = 0 := by
  have hval : cw_cal_visible_1 comp c = CW_BADVAL := by
    simp only [cw_cal_visible_1]
    rw [if_neg hc, if_pos h]
  rw [hval]
  simp [cw_uncal_visible_1]

theorem cw_angle_roundtrip (comp : Int)
    (hc : comp ≠ CW_COMPRESSION_TYPE_FLAT)
    (u : Nat) (h1 : 1 ≤ u) (h2 : u ≤ 65535) :
    cw_encode_angle_1 (cw_decode_angle_1 comp u) = u := by
  have hval : cw_decode_angle_1 comp u = ((u : ℚ) - 1) / 128 := by
    simp only [cw_decode_angle_1]
    rw [if_neg hc, if_neg (by omega)]
  have hge : (0 : ℚ) ≤ ((u : ℚ) - 1) / 128 := by
    apply div_nonneg
    · have huq : (1 : ℚ) ≤ (u : ℚ) := by exact_mod_cast h1
      linarith
    · norm_num
  have hnb : ((u : ℚ) - 1) / 128 ≠ CW_BADVAL := by
    simp only [CW_BADVAL]
    intro hbad
    rw [hbad] at hge
    norm_num at hge
  have hmul : ((u : ℚ) - 1) / 128 * 128 = (((u : Int) - 1 : Int) : ℚ) := by
    push_cast
    field_simp
  rw [hval]
  simp only [cw_encode_angle_1]
  rw [if_neg hnb, hmul, roundf_intCast,
    toUShort_eq_of_range ((u : Int) - 1) (by omega) (by omega)]
  rw [toUShort_eq_of_range ((((u : Int) - 1).toNat : Int) + 1) (by omega) (by omega)]
  omega

theorem cw_angle_badval_to_zero (comp : Int)
    (hc : comp ≠ CW_COMPRESSION_TYPE_FLAT) :
    cw_encode_angle_1 (cw_decode_angle_1 comp 0) = 0 := by
  have hval : cw_decode_angle_1 comp 0 = CW_BADVAL := by
    simp only [cw_decode_angle_1]
    rw [if_neg hc]
    simp
  rw [hval]
  simp [cw_encode_angle_1]

theorem uncal_ir_seg2 (x : ℚ) (hx1 : KTOC 178 < x) (hx2 : x < KTOC 270)
    (n : Int) (hn : (x - KTOC 178) / 0.1 = (n : ℚ))
    (hr1 : 0 ≤ n) (hr2 : n + 1 ≤ 2047) :
    cw_uncal_ir_1 x = n + 1 := by
  have hnb : ¬(x = CW_BADVAL ∨ x < KTOC 178) := by
    push_neg
    refine ⟨?_, le_of_lt hx1⟩
    intro h
    rw [h] at hx1
    simp only [CW_BADVAL, KTOC] at hx1
    norm_num at hx1
  have hs : (if x = KTOC 178 then (1 : Int)
      else if x > KTOC 178 ∧ x < KTOC 270 then
        toShort (toShort (roundf ((x - KTOC 178) / 0.1)) + 1)
      else if x ≥ KTOC 270 ∧ x ≤ KTOC 310 then
        toShort (toShort (roundf ((x - KTOC 270) / 0.05)) + 921)
      else toShort (toShort (roundf ((x - KTOC 310) / 0.1)) + 1721)) = n + 1 := by
    rw [if_neg (ne_of_gt hx1), if_pos ⟨hx1, hx2⟩, hn, roundf_intCast,
      toShort_eq_of_range n (by omega) (by omega),
      toShort_eq_of_range (n + 1) (by omega) (by omega)]
  simp only [cw_uncal_ir_1]
  rw [if_neg hnb, hs, if_neg (by omega)]

theorem uncal_ir_seg3 (x : ℚ) (hx0 : KTOC 178 < x)
    (hx1 : KTOC 270 ≤ x) (hx2 : x ≤ KTOC 310)
    (n : Int) (hn : (x - KTOC 270) / 0.05 = (n : ℚ))
    (hr1 : 0 ≤ n) (hr2 : n + 921 ≤ 2047) :
    cw_uncal_ir_1 x = n + 921 := by
  have hnb : ¬(x = CW_BADVAL ∨ x < KTOC 178) := by
    push_neg
    refine ⟨?_, le_of_lt hx0⟩
    intro h
    rw [h] at hx0
    simp only [CW_BADVAL, KTOC] at hx0
    norm_num at hx0
  have hs : (if x = KTOC 178 then (1 : Int)
      else if x > KTOC 178 ∧ x < KTOC 270 then
        toShort (toShort (roundf ((x - KTOC 178) / 0.1)) + 1)
      else if x ≥ KTOC 270 ∧ x ≤ KTOC 310 then
        toShort (toShort (roundf ((x - KTOC 270) / 0.05)) + 921)
      else toShort (toShort (roundf ((x - KTOC 310) / 0.1)) + 1721)) = n + 921 := by
    rw [if_neg (ne_of_gt hx0), if_neg (fun h => absurd h.2 (not_lt.mpr hx1)),
      if_pos ⟨hx1, hx2⟩, hn, roundf_intCast,
      toShort_eq_of_range n (by omega) (by omega),
      toShort_eq_of_range (n + 921) (by omega) (by omega)]
  simp only [cw_uncal_ir_1]
  rw [if_neg hnb, hs, if_neg (by omega)]

theorem uncal_ir_seg4 (x : ℚ) (hx : KTOC 310 < x)
    (n : Int) (hn : (x - KTOC 310) / 0.1 = (n : ℚ))
    (hr1 : 1 ≤ n) (hr2 : n + 1721 ≤ 2047) :
    cw_uncal_ir_1 x = n + 1721 := by
  have hx0 : KTOC 178 < x := by
    simp only [KTOC] at hx ⊢
    linarith
  have hx270 : KTOC 270 < x := by
    simp only [KTOC] at hx ⊢
    linarith
  have hnb : ¬(x = CW_BADVAL ∨ x < KTOC 178) := by
    push_neg
    refine ⟨?_, le_of_lt hx0⟩
    intro h
    rw [h] at hx0
    simp only [CW_BADVAL, KTOC] at hx0
    norm_num at hx0
  have hs : (if x = KTOC 178 then (1 : Int)
      else if x > KTOC 178 ∧ x < KTOC 270 then
        toShort (toShort (roundf ((x - KTOC 178) / 0.1)) + 1)
      else if x ≥ KTOC 270 ∧ x ≤ KTOC 310 then
        toShort (toShort (roundf ((x - KTOC 270) / 0.05)) + 921)
      else toShort (toShort (roundf ((x - KTOC 310) / 0.1)) + 1721)) = n + 1721 := by
    rw [if_neg (ne_of_gt hx0),
      if_neg (fun h => absurd h.2 (not_lt.mpr (le_of_lt hx270))),
      if_neg (fun h => absurd h.2 (not_le.mpr hx)), hn, roundf_intCast,
      toShort_eq_of_range n (by omega) (by omega),
      toShort_eq_of_range (n + 1721) (by omega) (by omega)]
  simp only [cw_uncal_ir_1]
  rw [if_neg hnb, hs, if_neg (by omega)]

theorem cw_ir_roundtrip (comp : Int) (hc : comp ≠ CW_COMPRESSION_TYPE_FLAT)
    (c : Int) (h1 : 1 ≤ c) (h2 : c ≤ 2047) :
    cw_uncal_ir_1 (cw_cal_ir_1 comp 4 c) = c := by
  rcases lt_or_le c 921 with hseg | hseg
  · rcases eq_or_lt_of_le h1 with hc1 | hc1
    · -- c = 1: code 1 decodes to exactly 178 K and encodes back to 1
      subst hc1
      have hval : cw_cal_ir_1 comp 4 1 = KTOC 178 := by
        simp only [cw_cal_ir_1]
        rw [if_neg hc]
        norm_num
      rw [hval]
      simp only [cw_uncal_ir_1]
      norm_num [KTOC, CW_BADVAL, toShort, roundf]
    · -- 2 ≤ c ≤ 920: first linear segment
      have hval : cw_cal_ir_1 comp 4 c = ((c : ℚ) - 1) * 0.1 + KTOC 178 := by
        simp only [cw_cal_ir_1]
        rw [if_neg hc, if_neg (by omega), if_neg (by omega), if_pos hseg]
      have hq1 : (2 : ℚ) ≤ (c : ℚ) := by exact_mod_cast (by omega : (2 : Int) ≤ c)
      have hq2 : (c : ℚ) ≤ 920 := by exact_mod_cast (by omega : c ≤ (920 : Int))
      rw [hval, uncal_ir_seg2 _ (by simp only [KTOC]; linarith)
        (by simp only [KTOC]; linarith) (c - 1)
        (by push_cast; field_simp; try ring) (by omega) (by omega)]
      omega
  · rcases le_or_lt c 1721 with hseg2 | hseg2
    · -- 921 ≤ c ≤ 1721: middle segment (the near-zero snap of the source
      -- is the identity over exact rationals: the only code within 0.01 of
      -- zero Celsius is 984, whose value is exactly zero)
      have hval : cw_cal_ir_1 comp 4 c = ((c : ℚ) - 921) * 0.05 + KTOC 270 := by
        simp only [cw_cal_ir_1]
        rw [if_neg hc, if_neg (by omega), if_neg (by omega), if_neg (by omega),
          if_pos hseg2]
        by_cases hsnap : |((c : ℚ) - 921) * 0.05 + KTOC 270 - 0| < 0.01
        · rw [if_pos hsnap]
          have hcq : ((c : ℚ) - 921) * 0.05 + KTOC 270 =
              ((c - 984 : Int) : ℚ) * 0.05 := by
            push_cast [KTOC]
            ring
          rw [hcq, sub_zero, abs_mul,
            (by norm_num : |(0.05 : ℚ)| = 0.05)] at hsnap
          have h984 : c = 984 := by
            by_contra hne
            have habs : (1 : ℚ) ≤ |((c - 984 : Int) : ℚ)| := by
              rw [← Int.cast_abs]
              exact_mod_cast Int.one_le_abs (show c - 984 ≠ 0 by omega)
            nlinarith
          subst h984
          norm_num [KTOC]
        · rw [if_neg hsnap]
      have hq1 : (921 : ℚ) ≤ (c : ℚ) := by exact_mod_cast hseg
      have hq2 : (c : ℚ) ≤ 1721 := by exact_mod_cast hseg2
      rw [hval, uncal_ir_seg3 _ (by simp only [KTOC]; linarith)
        (by simp only [KTOC]; linarith) (by simp only [KTOC]; linarith) (c - 921)
        (by push_cast; field_simp; try ring) (by omega) (by omega)]
      omega
    · -- 1722 ≤ c ≤ 2047: last linear segment
      have hval : cw_cal_ir_1 comp 4 c = ((c : ℚ) - 1721) * 0.1 + KTOC 310 := by
        simp only [cw_cal_ir_1]
        rw [if_neg hc, if_neg (by omega), if_neg (by omega), if_neg (by omega),
          if_neg (by omega)]
      have hq1 : (1722 : ℚ) ≤ (c : ℚ) := by exact_mod_cast (by omega : (1722 : Int) ≤ c)
      rw [hval, uncal_ir_seg4 _ (by simp only [KTOC]; linarith) (c - 1721)
        (by push_cast; field_simp; try ring) (by omega) (by omega)]
      omega

theorem cw_ir_badval_to_zero (comp : Int)
    (hc : comp ≠ CW_COMPRESSION_TYPE_FLAT)
    (c : Int) (h : c < 1 ∨ c > 2047) :
    cw_uncal_ir_1 (cw_cal_ir_1 comp 4 c) = 0 := by
  have hval : cw_cal_ir_1 comp 4 c = CW_BADVAL := by
    simp only [cw_cal_ir_1]
    rw [if_neg hc, if_pos h]
  rw [hval]
  simp [cw_uncal_ir_1]
